import Mathlib

/-!
Shallow embedding of the mygpoclient library (repository libmygpo-rs):
the data model of `src/device.rs`, `src/subscription.rs`, `src/suggestion.rs`,
the authenticated-request layer of `src/client.rs`, and the serde-derived
JSON (de)serialization the claims depend on.  Rust `url::Url` values are
modelled by their serialization `String` (the `url` crate compares, hashes
and serializes a `Url` through that string); `u8`/`u16`/`u64` fields are
modelled as `Nat`.  The blocking HTTP capability (reqwest) is modelled as a
function from a request to either a transport error or a response; a
received response of any status is an `Except.ok` of that function, which
is reqwest's documented behaviour (`send` fails only on transport errors,
never on a non-2xx status).
-/

/-- Minimal JSON value tree as produced by the serde_json codec. -/
inductive Json where
  | null
  | str (s : String)
  | num (n : Nat)
  | arr (xs : List Json)
  | obj (fields : List (String × Json))

/-- First field with the given key, as serde looks up object members. -/
def getField : List (String × Json) → String → Option Json
  | [], _ => none
  | (k, v) :: fs, key => if k == key then some v else getField fs key

/-- `DeviceType` from src/device.rs lines 17-28. -/
inductive DeviceType where
  | Desktop
  | Laptop
  | Mobile
  | Server
  | Other

/-- Lowercase wire name of a variant: serde attr `rename_all = "lowercase"`
on `DeviceType` (src/device.rs line 15). -/
def DeviceType.serialized : DeviceType → String
  | .Desktop => "desktop"
  | .Laptop => "laptop"
  | .Mobile => "mobile"
  | .Server => "server"
  | .Other => "other"

/-- Variant name as printed by the derived Debug impl, which is what
`impl fmt::Display for DeviceType` (src/device.rs lines 250-254) writes. -/
def DeviceType.displayName : DeviceType → String
  | .Desktop => "Desktop"
  | .Laptop => "Laptop"
  | .Mobile => "Mobile"
  | .Server => "Server"
  | .Other => "Other"

/-- Deserialization of a `DeviceType` from its lowercase wire name. -/
def parseDeviceType : Json → Option DeviceType
  | .str "desktop" => some .Desktop
  | .str "laptop" => some .Laptop
  | .str "mobile" => some .Mobile
  | .str "server" => some .Server
  | .str "other" => some .Other
  | _ => none

/-- `Device` from src/device.rs lines 31-44 (`subscriptions` is a `u16`). -/
structure Device where
  id : String
  caption : String
  device_type : DeviceType
  subscriptions : Nat

/-- `impl PartialEq for Device` (src/device.rs lines 256-260): id only. -/
def Device.eq (d1 d2 : Device) : Bool := d1.id == d2.id

/-- Byte/code-point comparison of two naturals, as Rust `Ord` on integers. -/
def natCmp (m n : Nat) : Ordering :=
  if m < n then .lt else if m = n then .eq else .gt

/-- Character comparison by code point, as Rust compares `char`/bytes. -/
def charCmp (a b : Char) : Ordering := natCmp a.toNat b.toNat

/-- Lexicographic comparison of character lists, the order Rust's
`str::cmp` induces on the underlying text. -/
def charListCmp : List Char → List Char → Ordering
  | [], [] => .eq
  | [], _ :: _ => .lt
  | _ :: _, [] => .gt
  | a :: as, b :: bs =>
    match charCmp a b with
    | .eq => charListCmp as bs
    | o => o

/-- Lexicographic string comparison, modelling Rust `String::cmp`. -/
def strCmp (a b : String) : Ordering := charListCmp a.data b.data

/-- `impl Ord for Device` (src/device.rs lines 262-266): id only. -/
def Device.cmp (d1 d2 : Device) : Ordering := strCmp d1.id d2.id

/-- `impl Hash for Device` (src/device.rs lines 274-278): only `id` is fed
to the hasher, so the digest is an arbitrary function of the id. -/
def Device.hash (d : Device) (state : String → Nat) : Nat := state d.id

/-- `impl fmt::Display for Device` (src/device.rs lines 280-284). -/
def Device.display (d : Device) : String :=
  d.device_type.displayName ++ " " ++ d.caption ++ " (id=" ++ d.id ++ ")"

/-- `Podcast` from src/subscription.rs lines 13-35; `Url` fields are
modelled by their serialization strings. -/
structure Podcast where
  url : String
  title : String
  author : Option String
  description : String
  subscribers : Nat
  subscribers_last_week : Nat
  logo_url : Option String
  scaled_logo_url : Option String
  website : Option String
  mygpo_link : String

/-- `impl PartialEq for Podcast` (src/subscription.rs lines 268-272). -/
def Podcast.eq (p1 p2 : Podcast) : Bool := p1.url == p2.url

/-- `impl Ord for Podcast` (src/subscription.rs lines 274-278); the `url`
crate orders a `Url` by its serialization string. -/
def Podcast.cmp (p1 p2 : Podcast) : Ordering := strCmp p1.url p2.url

/-- `impl Hash for Podcast` (src/subscription.rs lines 286-290). -/
def Podcast.hash (p : Podcast) (state : String → Nat) : Nat := state p.url

/-- `Suggestion` from src/suggestion.rs lines 13-31. -/
structure Suggestion where
  website : String
  mygpo_link : String
  description : String
  subscribers : Nat
  title : String
  url : String
  subscribers_last_week : Nat
  logo_url : Option String

/-- `impl PartialEq for Suggestion` (src/suggestion.rs lines 83-87). -/
def Suggestion.eq (s1 s2 : Suggestion) : Bool := s1.url == s2.url

/-- `impl Ord for Suggestion` (src/suggestion.rs lines 91-95). -/
def Suggestion.cmp (s1 s2 : Suggestion) : Ordering := strCmp s1.url s2.url

/-- `impl Hash for Suggestion` (src/suggestion.rs lines 103-107). -/
def Suggestion.hash (s : Suggestion) (state : String → Nat) : Nat := state s.url

/-- serde serialization of an `Option<Url>` / `Option<String>` field with no
skip attribute: `None` becomes JSON null, `Some` the string. -/
def serializeOptStr : Option String → Json
  | none => .null
  | some s => .str s

/-- serde deserialization of an optional string field. -/
def parseOptStr : Json → Option (Option String)
  | .null => some none
  | .str s => some (some s)
  | _ => none

/-- Derived `Serialize` for `Device`: members in declaration order, with
`device_type` renamed to `type` (src/device.rs line 40). -/
def serializeDevice (d : Device) : Json :=
  .obj [("id", .str d.id), ("caption", .str d.caption),
        ("type", .str d.device_type.serialized),
        ("subscriptions", .num d.subscriptions)]

/-- Derived `Deserialize` for `Device`. -/
def parseDevice (j : Json) : Option Device :=
  match j with
  | .obj fs =>
    match getField fs "id", getField fs "caption",
          getField fs "type", getField fs "subscriptions" with
    | some (.str id), some (.str caption), some tj, some (.num subs) =>
      match parseDeviceType tj with
      | some t => some ⟨id, caption, t, subs⟩
      | none => none
    | _, _, _, _ => none
  | _ => none

/-- Derived `Serialize` for `Podcast`: members in declaration order. -/
def serializePodcast (p : Podcast) : Json :=
  .obj [("url", .str p.url), ("title", .str p.title),
        ("author", serializeOptStr p.author),
        ("description", .str p.description),
        ("subscribers", .num p.subscribers),
        ("subscribers_last_week", .num p.subscribers_last_week),
        ("logo_url", serializeOptStr p.logo_url),
        ("scaled_logo_url", serializeOptStr p.scaled_logo_url),
        ("website", serializeOptStr p.website),
        ("mygpo_link", .str p.mygpo_link)]

/-- Derived `Deserialize` for `Podcast`. -/
def parsePodcast (j : Json) : Option Podcast :=
  match j with
  | .obj fs =>
    match getField fs "url", getField fs "title", getField fs "author",
          getField fs "description", getField fs "subscribers",
          getField fs "subscribers_last_week", getField fs "logo_url",
          getField fs "scaled_logo_url", getField fs "website",
          getField fs "mygpo_link" with
    | some (.str url), some (.str title), some aj, some (.str de),
      some (.num su), some (.num sw), some lj, some sj, some wj,
      some (.str my) =>
      match parseOptStr aj, parseOptStr lj, parseOptStr sj, parseOptStr wj with
      | some a, some l, some sc, some w =>
        some ⟨url, title, a, de, su, sw, l, sc, w, my⟩
      | _, _, _, _ => none
    | _, _, _, _, _, _, _, _, _, _ => none
  | _ => none

/-- Derived `Serialize` for `Suggestion`: members in declaration order. -/
def serializeSuggestion (s : Suggestion) : Json :=
  .obj [("website", .str s.website), ("mygpo_link", .str s.mygpo_link),
        ("description", .str s.description),
        ("subscribers", .num s.subscribers),
        ("title", .str s.title), ("url", .str s.url),
        ("subscribers_last_week", .num s.subscribers_last_week),
        ("logo_url", serializeOptStr s.logo_url)]

/-- Derived `Deserialize` for `Suggestion`. -/
def parseSuggestion (j : Json) : Option Suggestion :=
  match j with
  | .obj fs =>
    match getField fs "website", getField fs "mygpo_link",
          getField fs "description", getField fs "subscribers",
          getField fs "title", getField fs "url",
          getField fs "subscribers_last_week", getField fs "logo_url" with
    | some (.str w), some (.str my), some (.str de), some (.num su),
      some (.str t), some (.str url), some (.num sw), some lj =>
      match parseOptStr lj with
      | some l => some ⟨w, my, de, su, t, url, sw, l⟩
      | none => none
    | _, _, _, _, _, _, _, _ => none
  | _ => none

/-- Element-wise deserialization of a JSON array, as serde_json does for
`Vec<T>`: order preserved, any element failure fails the whole list. -/
def parseAll {α : Type} (p : Json → Option α) : List Json → Option (List α)
  | [] => some []
  | x :: xs =>
    match p x, parseAll p xs with
    | some a, some as => some (a :: as)
    | _, _ => none

/-- Deserialization of a `Vec<T>` response body. -/
def parseList {α : Type} (p : Json → Option α) : Json → Option (List α)
  | .arr xs => parseAll p xs
  | _ => none

/-- HTTP verb of a request. -/
inductive Method where
  | get
  | put
  | post

/-- One outgoing HTTP request as shaped by the reqwest builder calls in
src/client.rs: URL, ordered query pairs (handed to the urlencoder in the
order supplied), optional basic-auth credentials, optional user-agent
header, optional JSON body. -/
structure HttpRequest where
  method : Method
  url : String
  query : List (String × String)
  basic_auth : Option (String × String)
  user_agent : Option String
  body : Option Json

/-- One received HTTP response: status code and JSON body. -/
structure HttpResponse where
  status : Nat
  body : Json

/-- The blocking HTTP capability: reqwest's `send` either fails with a
transport error (modelled as a string) or yields the received response,
whatever its status code — reqwest never turns a non-2xx status into an
error unless `error_for_status` is called, which this library never does. -/
abbrev HttpExchange := HttpRequest → Except String HttpResponse

/-- Modelled from the spec: the crate name constant `PACKAGE_NAME`
(src/client.rs line 5) comes from Cargo.toml via `env!`, and Cargo.toml is
not under src/; the crate is named `mygpoclient` in the doc examples. -/
def PACKAGE_NAME : String := "mygpoclient"

/-- Modelled from the spec: the crate version constant `PACKAGE_VERSION`
(src/client.rs line 6) comes from Cargo.toml via `env!`, which is not under
src/; only that it is one fixed string matters to the claims. -/
def PACKAGE_VERSION : String := "0.1.0"

/-- The one user-agent value every request carries, built in
src/client.rs lines 43-46, 59-62 and 75-78. -/
def userAgentString : String := PACKAGE_NAME ++ "/" ++ PACKAGE_VERSION

/-- `AuthenticatedClient` (src/client.rs lines 8-13); the reqwest `Client`
member carries no state the claims depend on. -/
structure AuthenticatedClient where
  username : String
  password : String

/-- `AuthenticatedClient::new` (src/client.rs lines 22-28). -/
def AuthenticatedClient.new (username password : String) : AuthenticatedClient :=
  ⟨username, password⟩

/-- `DeviceClient` (src/client.rs lines 15-19). -/
structure DeviceClient where
  device_id : String
  authenticated_client : AuthenticatedClient

/-- `DeviceClient::new` (src/client.rs lines 85-90). -/
def DeviceClient.new (username password device_id : String) : DeviceClient :=
  ⟨device_id, AuthenticatedClient.new username password⟩

/-- `AuthenticatedClient::get_with_query` (src/client.rs lines 35-49):
GET with basic auth, the fixed user agent, and the supplied query pairs
appended in order. -/
def AuthenticatedClient.get_with_query (c : AuthenticatedClient)
    (url : String) (query_parameters : List (String × String)) : HttpRequest :=
  ⟨.get, url, query_parameters, some (c.username, c.password),
    some userAgentString, none⟩

/-- `AuthenticatedClient::get` (src/client.rs lines 30-33): delegates to
`get_with_query` with an empty parameter slice. -/
def AuthenticatedClient.get (c : AuthenticatedClient) (url : String) : HttpRequest :=
  c.get_with_query url []

/-- `AuthenticatedClient::put` (src/client.rs lines 51-65). -/
def AuthenticatedClient.put (c : AuthenticatedClient) (url : String)
    (json : Json) : HttpRequest :=
  ⟨.put, url, [], some (c.username, c.password), some userAgentString, some json⟩

/-- `AuthenticatedClient::post` (src/client.rs lines 67-81). -/
def AuthenticatedClient.post (c : AuthenticatedClient) (url : String)
    (json : Json) : HttpRequest :=
  ⟨.post, url, [], some (c.username, c.password), some userAgentString, some json⟩

/-- `DeviceClient::get` (src/client.rs lines 92-94): pure delegation. -/
def DeviceClient.get (c : DeviceClient) (url : String) : HttpRequest :=
  c.authenticated_client.get url

/-- `DeviceClient::get_with_query` (src/client.rs lines 96-103). -/
def DeviceClient.get_with_query (c : DeviceClient) (url : String)
    (query_parameters : List (String × String)) : HttpRequest :=
  c.authenticated_client.get_with_query url query_parameters

/-- `DeviceClient::put` (src/client.rs lines 105-111). -/
def DeviceClient.put (c : DeviceClient) (url : String) (json : Json) : HttpRequest :=
  c.authenticated_client.put url json

/-- `DeviceClient::post` (src/client.rs lines 113-119). -/
def DeviceClient.post (c : DeviceClient) (url : String) (json : Json) : HttpRequest :=
  c.authenticated_client.post url json

/-- Modelled from the spec: src/error.rs is declared in lib.rs but missing
from src/. Spec section 7 gives the taxonomy used by the operations: a
transport error wrapping the HTTP capability's error, and a
deserialization error. -/
inductive Error where
  | http (e : String)
  | json

/-- `DeviceData` (src/device.rs lines 46-53): both members carry
`skip_serializing_if = "Option::is_none"` and `device_type` is renamed
to `type`. -/
structure DeviceData where
  caption : Option String
  device_type : Option DeviceType

/-- Derived `Serialize` for `DeviceData`: each member appears only when
present, in declaration order, so both absent yields the empty object. -/
def serializeDeviceData (d : DeviceData) : Json :=
  .obj ((match d.caption with
         | some c => [("caption", Json.str c)]
         | none => []) ++
        (match d.device_type with
         | some t => [("type", Json.str t.serialized)]
         | none => []))

/-- The request `update_device_data` posts (src/device.rs lines 184-203). -/
def updateDeviceDataRequest (c : DeviceClient) (caption : Option String)
    (device_type : Option DeviceType) : HttpRequest :=
  c.post ("https://gpodder.net/api/2/devices/" ++ c.authenticated_client.username
      ++ "/" ++ c.device_id ++ ".json")
    (serializeDeviceData ⟨caption, device_type⟩)

/-- `update_device_data` (src/device.rs lines 184-203): posts the partial
record and discards the response entirely — `?` propagates only the HTTP
capability's own error, then the result is `Ok(())`. -/
def update_device_data (http : HttpExchange) (c : DeviceClient)
    (caption : Option String) (device_type : Option DeviceType) :
    Except Error Unit :=
  match http (updateDeviceDataRequest c caption device_type) with
  | .error e => .error (.http e)
  | .ok _ => .ok ()

/-- The request `list_devices` issues (src/device.rs lines 205-214). -/
def listDevicesRequest (c : AuthenticatedClient) : HttpRequest :=
  c.get ("https://gpodder.net/api/2/devices/" ++ c.username ++ ".json")

/-- `list_devices` for `AuthenticatedClient` (src/device.rs lines 205-214):
one GET, body deserialized as `Vec<Device>`. -/
def list_devices (http : HttpExchange) (c : AuthenticatedClient) :
    Except Error (List Device) :=
  match http (listDevicesRequest c) with
  | .error e => .error (.http e)
  | .ok resp =>
    match parseList parseDevice resp.body with
    | some ds => .ok ds
    | none => .error .json

/-- The request `upload_subscriptions_of_device` issues
(src/subscription.rs lines 219-228): PUT of the URL array. -/
def uploadSubscriptionsRequest (c : DeviceClient) (subscriptions : List String) :
    HttpRequest :=
  c.put ("https://gpodder.net/subscriptions/" ++ c.authenticated_client.username
      ++ "/" ++ c.device_id ++ ".json")
    (.arr (subscriptions.map .str))

/-- `upload_subscriptions_of_device` (src/subscription.rs lines 219-228):
puts the full list and discards the response (`// TODO handle response?`),
so only the HTTP capability's own error propagates. -/
def upload_subscriptions_of_device (http : HttpExchange) (c : DeviceClient)
    (subscriptions : List String) : Except Error Unit :=
  match http (uploadSubscriptionsRequest c subscriptions) with
  | .error e => .error (.http e)
  | .ok _ => .ok ()

/-- The request `get_subscriptions_of_device` issues
(src/subscription.rs lines 210-217). -/
def getSubscriptionsOfDeviceRequest (c : DeviceClient) : HttpRequest :=
  c.get ("https://gpodder.net/subscriptions/" ++ c.authenticated_client.username
      ++ "/" ++ c.device_id ++ ".json")

/-- The request `get_device_updates` issues (src/device.rs lines 222-248):
query pairs `since` then `include_actions`, rendered by `Display`. -/
def getDeviceUpdatesRequest (c : DeviceClient) (since : Nat)
    (include_actions : Bool) : HttpRequest :=
  c.get_with_query ("https://gpodder.net/api/2/updates/"
      ++ c.authenticated_client.username ++ "/" ++ c.device_id ++ ".json")
    [("since", toString since), ("include_actions", toString include_actions)]

/-- The request `get_subscription_changes` issues
(src/subscription.rs lines 252-265). -/
def getSubscriptionChangesRequest (c : DeviceClient) (timestamp : Nat) :
    HttpRequest :=
  c.get_with_query ("https://gpodder.net/api/2/subscriptions/"
      ++ c.authenticated_client.username ++ "/" ++ c.device_id ++ ".json")
    [("since", toString timestamp)]

/-- The request `retrieve_suggested_podcasts` issues
(src/suggestion.rs lines 66-75): `max_results` (a `u8`) is interpolated
into the path in decimal. -/
def retrieveSuggestedPodcastsRequest (c : AuthenticatedClient)
    (max_results : Nat) : HttpRequest :=
  c.get ("https://gpodder.net/suggestions/" ++ toString max_results ++ ".json")

/-- `retrieve_suggested_podcasts` for `AuthenticatedClient`
(src/suggestion.rs lines 66-75): one GET, body deserialized as
`Vec<Suggestion>`, returned as is. -/
def retrieve_suggested_podcasts (http : HttpExchange) (c : AuthenticatedClient)
    (max_results : Nat) : Except Error (List Suggestion) :=
  match http (retrieveSuggestedPodcastsRequest c max_results) with
  | .error e => .error (.http e)
  | .ok resp =>
    match parseList parseSuggestion resp.body with
    | some ss => .ok ss
    | none => .error .json

/-- An HTTP capability that answers every request with one fixed response,
used to state what an operation does with a given server answer. -/
def constHttp (resp : HttpResponse) : HttpExchange := fun _ => .ok resp

/-- An HTTP capability whose transport fails on every request. -/
def failHttp (e : String) : HttpExchange := fun _ => .error e

/-- Device from the repository's own test `equal_device_means_equal_hash`. -/
def deviceA : Device := ⟨"abcdef", "gPodder on my Lappy", .Laptop, 27⟩

/-- Second device of that test: same id, all other members different. -/
def deviceB : Device := ⟨"abcdef", "unnamed", .Other, 1⟩

/-- Device from `not_equal_devices_have_non_equal_ordering`. -/
def deviceC : Device := ⟨"phone-au90f923023.203f9j23f", "My Phone", .Mobile, 5⟩

/-- Podcast from the test `equal_subscription_means_equal_hash`. -/
def podcastA : Podcast :=
  ⟨"http://goinglinux.com/mp3podcast.xml", "Linux Geekdom", none,
   "Linux Geekdom", 0, 0, none, none, some "http://www.linuxgeekdom.com",
   "http://gpodder.net/podcast/64439"⟩

/-- Second podcast of that test: same feed URL, other members different. -/
def podcastB : Podcast :=
  ⟨"http://goinglinux.com/mp3podcast.xml", "Going Linux", none,
   "Going Linux", 571, 571, some "http://goinglinux.com/images/GoingLinux80.png",
   some "http://goinglinux.com/images/GoingLinux80.png",
   some "http://goinglinux.com", "http://gpodder.net/podcast/11171"⟩

/-- Suggestion from the test `equal_suggestion_means_equal_hash`. -/
def suggestionA : Suggestion :=
  ⟨"http://www.linuxgeekdom.com", "http://gpodder.net/podcast/64439",
   "Linux Geekdom", 0, "Linux Geekdom",
   "http://goinglinux.com/mp3podcast.xml", 0, none⟩

/-- Second suggestion of that test: same feed URL, other members differ. -/
def suggestionB : Suggestion :=
  ⟨"http://goinglinux.com", "http://gpodder.net/podcast/11171",
   "Going Linux", 571, "Going Linux",
   "http://goinglinux.com/mp3podcast.xml", 571,
   some "http://goinglinux.com/images/GoingLinux80.png"⟩

theorem natCmp_self (n : Nat) : natCmp n n = .eq := by
  simp [natCmp]

theorem charListCmp_self (l : List Char) : charListCmp l l = .eq := by
  induction l with
  | nil => rfl
  | cons c cs ih => simp [charListCmp, charCmp, natCmp_self, ih]

theorem strCmp_self (s : String) : strCmp s s = .eq :=
  charListCmp_self s.data

theorem parseDevice_roundtrip (d : Device) :
    parseDevice (serializeDevice d) = some d := by
  obtain ⟨id, caption, t, subs⟩ := d
  cases t <;> rfl

theorem parsePodcast_roundtrip (p : Podcast) :
    parsePodcast (serializePodcast p) = some p := by
  obtain ⟨url, title, a, de, su, sw, l, sc, w, my⟩ := p
  cases a <;> cases l <;> cases sc <;> cases w <;> rfl

theorem parseSuggestion_roundtrip (s : Suggestion) :
    parseSuggestion (serializeSuggestion s) = some s := by
  obtain ⟨w, my, de, su, t, url, sw, l⟩ := s
  cases l <;> rfl

theorem parseAll_map {α : Type} (p : Json → Option α) (f : α → Json)
    (h : ∀ a, p (f a) = some a) (xs : List α) :
    parseAll p (xs.map f) = some xs := by
  induction xs with
  | nil => rfl
  | cons x xs ih => simp [parseAll, h, ih]

/-- Claim C1: for Device, Podcast and Suggestion, equality, ordering and
hashing are determined by the natural key alone (Device.id, Podcast.url,
Suggestion.url): pairs sharing the key are equal, compare Equal and hash
identically under every hasher; pairs with distinct keys are unequal and
compare as the lexicographic comparison of the two keys. -/
theorem natural_key_eq_ord_hash (d1 d2 : Device) (p1 p2 : Podcast)
    (s1 s2 : Suggestion) :
    (d1.id = d2.id → Device.eq d1 d2 = true ∧ Device.cmp d1 d2 = .eq ∧
      ∀ h : String → Nat, Device.hash d1 h = Device.hash d2 h)
  ∧ (d1.id ≠ d2.id → Device.eq d1 d2 = false ∧
      Device.cmp d1 d2 = strCmp d1.id d2.id)
  ∧ (p1.url = p2.url → Podcast.eq p1 p2 = true ∧ Podcast.cmp p1 p2 = .eq ∧
      ∀ h : String → Nat, Podcast.hash p1 h = Podcast.hash p2 h)
  ∧ (p1.url ≠ p2.url → Podcast.eq p1 p2 = false ∧
      Podcast.cmp p1 p2 = strCmp p1.url p2.url)
  ∧ (s1.url = s2.url → Suggestion.eq s1 s2 = true ∧
      Suggestion.cmp s1 s2 = .eq ∧
      ∀ h : String → Nat, Suggestion.hash s1 h = Suggestion.hash s2 h)
  ∧ (s1.url ≠ s2.url → Suggestion.eq s1 s2 = false ∧
      Suggestion.cmp s1 s2 = strCmp s1.url s2.url) := by
  refine ⟨fun h => ⟨?_, ?_, fun f => ?_⟩, fun h => ⟨?_, rfl⟩,
          fun h => ⟨?_, ?_, fun f => ?_⟩, fun h => ⟨?_, rfl⟩,
          fun h => ⟨?_, ?_, fun f => ?_⟩, fun h => ⟨?_, rfl⟩⟩
  · simp [Device.eq, h]
  · show strCmp d1.id d2.id = .eq
    rw [h]; exact strCmp_self _
  · simp [Device.hash, h]
  · exact beq_eq_false_iff_ne.mpr h
  · simp [Podcast.eq, h]
  · show strCmp p1.url p2.url = .eq
    rw [h]; exact strCmp_self _
  · simp [Podcast.hash, h]
  · exact beq_eq_false_iff_ne.mpr h
  · simp [Suggestion.eq, h]
  · show strCmp s1.url s2.url = .eq
    rw [h]; exact strCmp_self _
  · simp [Suggestion.hash, h]
  · exact beq_eq_false_iff_ne.mpr h

/-- Witness for C1 on the repository's own test data: the hypotheses are
discharged at concrete records sharing, then not sharing, the key. -/
theorem natural_key_eq_ord_hash_witness :
    Device.eq deviceA deviceB = true ∧ Device.cmp deviceA deviceB = .eq
  ∧ Device.hash deviceA String.length = Device.hash deviceB String.length
  ∧ Device.eq deviceA deviceC = false
  ∧ Podcast.eq podcastA podcastB = true
  ∧ Suggestion.eq suggestionA suggestionB = true := by
  have h := natural_key_eq_ord_hash deviceA deviceB podcastA podcastB
    suggestionA suggestionB
  have h2 := natural_key_eq_ord_hash deviceA deviceC podcastA podcastB
    suggestionA suggestionB
  exact ⟨(h.1 rfl).1, (h.1 rfl).2.1, (h.1 rfl).2.2 String.length,
    (h2.2.1 (by decide)).1, (h.2.2.1 rfl).1, (h.2.2.2.2.1 rfl).1⟩

/-- Claim C2 counterexample: a server answering with a non-2xx status (404
for the device-data POST, 500 for the subscription PUT) still yields `Ok`
from `update_device_data` and `upload_subscriptions_of_device` — the code
never inspects the status, so no error is surfaced. -/
theorem nonsuccess_status_returns_ok :
    update_device_data (constHttp ⟨404, .obj []⟩)
      (DeviceClient.new "user" "pass" "dev") (some "My Phone") none = .ok ()
  ∧ upload_subscriptions_of_device (constHttp ⟨500, .obj []⟩)
      (DeviceClient.new "user" "pass" "dev") [] = .ok () :=
  ⟨rfl, rfl⟩

/-- Claim C2 amended: `update_device_data` and
`upload_subscriptions_of_device` return `Ok` whenever any response is
received, whatever its status, and return an error exactly when the HTTP
capability itself fails with a transport error. -/
theorem status_ignored_transport_error_propagated (c : DeviceClient)
    (cap : Option String) (dt : Option DeviceType) (subs : List String)
    (resp : HttpResponse) (e : String) :
    update_device_data (constHttp resp) c cap dt = .ok ()
  ∧ upload_subscriptions_of_device (constHttp resp) c subs = .ok ()
  ∧ update_device_data (failHttp e) c cap dt = .error (.http e)
  ∧ upload_subscriptions_of_device (failHttp e) c subs = .error (.http e) :=
  ⟨rfl, rfl, rfl, rfl⟩

/-- Claim C3: the body `update_device_data` posts holds exactly the present
members — only `caption` when only caption is Some, only `type` when only
device_type is Some, the empty object when both are None, both otherwise —
and a present device type is serialized as the lowercase variant name
under the key `type`. -/
theorem update_device_data_body_shape (c : DeviceClient) (cap : String)
    (dt : DeviceType) :
    (updateDeviceDataRequest c (some cap) none).body
      = some (.obj [("caption", .str cap)])
  ∧ (updateDeviceDataRequest c none (some dt)).body
      = some (.obj [("type", .str dt.serialized)])
  ∧ (updateDeviceDataRequest c none none).body = some (.obj [])
  ∧ (updateDeviceDataRequest c (some cap) (some dt)).body
      = some (.obj [("caption", .str cap), ("type", .str dt.serialized)])
  ∧ dt.serialized.data = dt.displayName.data.map Char.toLower :=
  ⟨rfl, rfl, rfl, rfl, by cases dt <;> decide⟩

/-- Claim C4: serializing a Device, Podcast or Suggestion to JSON and
deserializing the result restores every member of the original record. -/
theorem serialize_roundtrip (d : Device) (p : Podcast) (s : Suggestion) :
    parseDevice (serializeDevice d) = some d
  ∧ parsePodcast (serializePodcast p) = some p
  ∧ parseSuggestion (serializeSuggestion s) = some s :=
  ⟨parseDevice_roundtrip d, parsePodcast_roundtrip p, parseSuggestion_roundtrip s⟩

/-- Claim C5: every request built by any verb of `AuthenticatedClient`
(get, get_with_query, put, post) and by the delegating `DeviceClient`
carries basic authentication with the held username and password and the
one static user-agent string, which is the package name, a slash, and the
package version. -/
theorem verbs_attach_auth_and_user_agent (c : AuthenticatedClient)
    (dc : DeviceClient) (url : String) (qp : List (String × String))
    (body : Json) :
    ((c.get url).basic_auth = some (c.username, c.password)
      ∧ (c.get url).user_agent = some userAgentString)
  ∧ ((c.get_with_query url qp).basic_auth = some (c.username, c.password)
      ∧ (c.get_with_query url qp).user_agent = some userAgentString)
  ∧ ((c.put url body).basic_auth = some (c.username, c.password)
      ∧ (c.put url body).user_agent = some userAgentString)
  ∧ ((c.post url body).basic_auth = some (c.username, c.password)
      ∧ (c.post url body).user_agent = some userAgentString)
  ∧ ((dc.get url).basic_auth
      = some (dc.authenticated_client.username, dc.authenticated_client.password)
      ∧ (dc.get url).user_agent = some userAgentString)
  ∧ ((dc.get_with_query url qp).basic_auth
      = some (dc.authenticated_client.username, dc.authenticated_client.password)
      ∧ (dc.get_with_query url qp).user_agent = some userAgentString)
  ∧ ((dc.put url body).basic_auth
      = some (dc.authenticated_client.username, dc.authenticated_client.password)
      ∧ (dc.put url body).user_agent = some userAgentString)
  ∧ ((dc.post url body).basic_auth
      = some (dc.authenticated_client.username, dc.authenticated_client.password)
      ∧ (dc.post url body).user_agent = some userAgentString)
  ∧ userAgentString = PACKAGE_NAME ++ "/" ++ PACKAGE_VERSION :=
  ⟨⟨rfl, rfl⟩, ⟨rfl, rfl⟩, ⟨rfl, rfl⟩, ⟨rfl, rfl⟩,
   ⟨rfl, rfl⟩, ⟨rfl, rfl⟩, ⟨rfl, rfl⟩, ⟨rfl, rfl⟩, rfl⟩

/-- Claim C6 counterexample: for username alice, the GET issued by
`list_devices` targets `/api/2/devices/alice.json` on gpodder.net, not the
`/devices/alice.json` path the claim states. -/
theorem list_devices_path_counterexample :
    (listDevicesRequest (AuthenticatedClient.new "alice" "secret")).url
      = "https://gpodder.net/api/2/devices/alice.json"
  ∧ (listDevicesRequest (AuthenticatedClient.new "alice" "secret")).url
      ≠ "https://gpodder.net/devices/alice.json" :=
  ⟨by decide, by decide⟩

/-- Claim C6 amended: for every username, `list_devices` issues one GET to
`https://gpodder.net/api/2/devices/{username}.json` with no query
parameters, and returns the body deserialized as a Device sequence in the
order the server returned it. -/
theorem list_devices_request_and_result (u p : String) (ds : List Device) :
    (listDevicesRequest (AuthenticatedClient.new u p)).method = .get
  ∧ (listDevicesRequest (AuthenticatedClient.new u p)).url
      = "https://gpodder.net/api/2/devices/" ++ u ++ ".json"
  ∧ (listDevicesRequest (AuthenticatedClient.new u p)).query = []
  ∧ list_devices (constHttp ⟨200, .arr (ds.map serializeDevice)⟩)
      (AuthenticatedClient.new u p) = .ok ds := by
  refine ⟨rfl, rfl, rfl, ?_⟩
  simp [list_devices, constHttp, parseList,
    parseAll_map parseDevice serializeDevice parseDevice_roundtrip]

/-- Claim C7: `get_with_query` of both clients keeps the caller-supplied
query pairs exactly, in the supplied order, reordering and dropping
nothing. -/
theorem get_with_query_preserves_query_order (c : AuthenticatedClient)
    (dc : DeviceClient) (url : String) (qp : List (String × String)) :
    (c.get_with_query url qp).query = qp
  ∧ (dc.get_with_query url qp).query = qp :=
  ⟨rfl, rfl⟩

/-- Claim C8: `retrieve_suggested_podcasts` issues a GET to
`/suggestions/{max_results}.json` with max_results rendered verbatim in
the path and no query, and returns the deserialized suggestion sequence
unchanged, whatever its length. -/
theorem suggestions_request_and_result (u p : String) (m : Nat)
    (ss : List Suggestion) :
    (retrieveSuggestedPodcastsRequest (AuthenticatedClient.new u p) m).method = .get
  ∧ (retrieveSuggestedPodcastsRequest (AuthenticatedClient.new u p) m).url
      = "https://gpodder.net/suggestions/" ++ toString m ++ ".json"
  ∧ (retrieveSuggestedPodcastsRequest (AuthenticatedClient.new u p) m).query = []
  ∧ retrieve_suggested_podcasts
      (constHttp ⟨200, .arr (ss.map serializeSuggestion)⟩)
      (AuthenticatedClient.new u p) m = .ok ss := by
  refine ⟨rfl, rfl, rfl, ?_⟩
  simp [retrieve_suggested_podcasts, constHttp, parseList,
    parseAll_map parseSuggestion serializeSuggestion parseSuggestion_roundtrip]

/-- Claim C9: a Device renders as the device type's variant name, a space,
the caption, a space, and the id wrapped in `(id=...)`; in particular
id abcdef, caption My Phone, type Mobile renders as
`Mobile My Phone (id=abcdef)`. -/
theorem device_display_format :
    (∀ d : Device, d.display
      = d.device_type.displayName ++ " " ++ d.caption ++ " (id=" ++ d.id ++ ")")
  ∧ Device.display ⟨"abcdef", "My Phone", .Mobile, 0⟩
      = "Mobile My Phone (id=abcdef)" :=
  ⟨fun _ => rfl, by decide⟩

/-- Claim C10: both constructors accept every username, password and
device_id string, store them verbatim without validation, and every
device-scoped request splices the stored device_id into its URL verbatim,
with no pattern check. -/
theorem client_construction_total_verbatim (u p d : String)
    (cap : Option String) (dt : Option DeviceType) (subs : List String)
    (since ts : Nat) (ia : Bool) :
    (AuthenticatedClient.new u p).username = u
  ∧ (AuthenticatedClient.new u p).password = p
  ∧ (DeviceClient.new u p d).device_id = d
  ∧ (DeviceClient.new u p d).authenticated_client = AuthenticatedClient.new u p
  ∧ (updateDeviceDataRequest (DeviceClient.new u p d) cap dt).url
      = "https://gpodder.net/api/2/devices/" ++ u ++ "/" ++ d ++ ".json"
  ∧ (uploadSubscriptionsRequest (DeviceClient.new u p d) subs).url
      = "https://gpodder.net/subscriptions/" ++ u ++ "/" ++ d ++ ".json"
  ∧ (getSubscriptionsOfDeviceRequest (DeviceClient.new u p d)).url
      = "https://gpodder.net/subscriptions/" ++ u ++ "/" ++ d ++ ".json"
  ∧ (getDeviceUpdatesRequest (DeviceClient.new u p d) since ia).url
      = "https://gpodder.net/api/2/updates/" ++ u ++ "/" ++ d ++ ".json"
  ∧ (getSubscriptionChangesRequest (DeviceClient.new u p d) ts).url
      = "https://gpodder.net/api/2/subscriptions/" ++ u ++ "/" ++ d ++ ".json" :=
  ⟨rfl, rfl, rfl, rfl, rfl, rfl, rfl, rfl, rfl⟩
